import Mathlib

/-!
# Verification of the KRON CH30 Modbus reader (`modbus_reader.py`)

This file gives a shallow embedding of the acquisition core of the
dashboard repository: the payload decoder `KronReader._decode_registers`,
the device prober (`_auto_detect`, `_channels_to_scan`, `_probe_channel`),
the session lifecycle (`__init__`, `connect`, `_test_connection`, `close`)
and the acquisition entry points (`read_all`, `scan_registers`).

Modelling conventions:
* Python dict-based configuration records become structures whose fields are
  `Option`-typed; the defaults that the source applies via `dict.get(key,
  default)` are applied at the use sites, exactly where the source applies
  them.
* Machine integers are `Nat`/`Int` with explicit `% 2^w` reductions where the
  source (via `struct.pack`) truncates or rejects.
* Python floats produced by integer decodes and scaling are modelled as exact
  rationals (`ℚ`); 32-bit IEEE-754 float decodes are modelled by the 32-bit
  pattern handed to the IEEE-754 interpretation, which is injective on the
  (non-NaN) patterns used in the theorems below, together with the scale the
  pattern's value is multiplied by.
* I/O outcomes (serial port enumeration, a probe's response, a register
  read) are supplied by an explicit environment record `Env`; fallible code
  returns `Option`/`Except`.
-/

namespace Emusa

/-- Byte/word endianness, mirroring `pymodbus.constants.Endian`. -/
inductive Endian where
  | big
  | little
deriving DecidableEq

/-- Swap the two bytes of a 16-bit word. -/
def swap16 (w : Nat) : Nat := w % 256 * 256 + w / 256 % 256

/-- High 16-bit word of a 32-bit value. -/
def hi16 (v : Nat) : Nat := v / 65536 % 65536

/-- Low 16-bit word of a 32-bit value. -/
def lo16 (v : Nat) : Nat := v % 65536

/-- Two's-complement reading of a 16-bit word (`struct.unpack`'s `h`). -/
def toSigned16 (w : Nat) : Int := if w < 32768 then (w : Int) else (w : Int) - 65536

/-- Two's-complement reading of a 32-bit value (`struct.unpack`'s `i`). -/
def toSigned32 (w : Nat) : Int := if w < 2147483648 then (w : Int) else (w : Int) - 4294967296

/-- Re-pack one 16-bit word with the requested byte order
(`pymodbus.payload.BinaryPayloadDecoder._unpack_words`, byte-order step). -/
def applyByte (byte : Endian) (w : Nat) : Nat :=
  if byte = Endian.little then swap16 w else w

/-- The 32-bit pattern `BinaryPayloadDecoder` hands to the final big-endian
`struct.unpack` when decoding a two-word value from registers `r0, r1`:
`fromRegisters` packs each register big-endian; `_unpack_words` reverses the
word sequence when the word order is little and swaps the bytes inside each
word when the byte order is little. -/
def unpackWords32 (byte word : Endian) (r0 r1 : Nat) : Nat :=
  let a := if word = Endian.little then r1 else r0
  let b := if word = Endian.little then r0 else r1
  applyByte byte a * 65536 + applyByte byte b

/-- Result value of `_decode_registers`, one acquisition value of the reader.
`num q` is an `int`/`float` result (exact rational); `f32 bits scale` is the
result of `decode_32bit_float`, recorded as the 32-bit IEEE-754 pattern that
was decoded together with the scale it is multiplied by; `str s` is a decoded
register string. -/
inductive PyVal where
  | num (q : ℚ)
  | f32 (bits : Nat) (scale : ℚ)
  | str (s : String)
deriving DecidableEq

/-- Python `str.lower()` (ASCII case mapping, the only case the register
maps exercise), implemented on the character list so that it reduces
definitionally. -/
def strLower (s : String) : String := String.mk (s.toList.map Char.toLower)

/-- Python `str.upper()` (ASCII case mapping). -/
def strUpper (s : String) : String := String.mk (s.toList.map Char.toUpper)

/-- Python `s.startswith(p)`. -/
def strStartsWith (s p : String) : Bool := p.toList.isPrefixOf s.toList

/-- Lines 329-340 of `_decode_registers`: resolve the `byteorder`/`wordorder`
options (defaults `"big"`), returning the `(word, byte)` pair of endianness
values exactly as the source's variable pair after the special handling of
the three mixed word-order conventions (the source's `mapping` dict is
destructured as `word, byte = mapping[wordorder]`). -/
def resolveByteWord (byteorder wordorder : Option String) : Endian × Endian :=
  let bo := strLower (byteorder.getD "big")
  let wo := strLower (wordorder.getD "big")
  let byte := if strStartsWith bo "b" then Endian.big else Endian.little
  let word := if strStartsWith wo "b" then Endian.big else Endian.little
  if wo = "dcba" then (Endian.little, Endian.little)
  else if wo = "cdab" then (Endian.big, Endian.little)
  else if wo = "badc" then (Endian.little, Endian.big)
  else (word, byte)

/-- The big-endian byte stream `BinaryPayloadDecoder.fromRegisters` builds
from the register words (`struct.pack("!H", x)` for each register). -/
def registerBytes : List Nat → List Nat
  | [] => []
  | r :: rs => r / 256 % 256 :: r % 256 :: registerBytes rs

/-- `bytes.decode("latin-1")`: every byte becomes the character with that
code point (total on bytes, so `errors="ignore"` never triggers). -/
def latin1OfRegisters (regs : List Nat) : String :=
  String.mk ((registerBytes regs).map Char.ofNat)

/-- Python `str.strip()` whitespace set (ASCII part). -/
def pyIsSpace (c : Char) : Bool :=
  c = ' ' ∨ c = '\t' ∨ c = '\n' ∨ c = '\r' ∨ c = Char.ofNat 11 ∨ c = Char.ofNat 12

/-- Strip characters satisfying `p` from both ends of a string
(Python `str.strip`). -/
def stripEnds (p : Char → Bool) (s : String) : String :=
  String.mk (((s.toList.dropWhile p).reverse.dropWhile p).reverse)

/-- Python `str.strip()` (ASCII whitespace). -/
def pyStrip (s : String) : String := stripEnds pyIsSpace s

/-- Python `str.strip("\x00")`. -/
def pyStripNul (s : String) : String := stripEnds (fun c => c = Char.ofNat 0) s

/-- The type dispatch of `_decode_registers` (lines 342-360), applied to the
lower-cased type name, the resolved scale and the resolved endianness pair.
`none` models a raised `struct.error` on a register sequence too short for
the requested width (`decode_32bit_*` needs two registers, `registers[0]`
and `decode_16bit_int` need one). -/
def decodeTyped (registers : List Nat) (dt : String) (sc : ℚ)
    (word byte : Endian) : Option PyVal :=
  if dt = "float" ∨ dt = "float32" then
    match registers with
    | r0 :: r1 :: _ => some (PyVal.f32 (unpackWords32 byte word r0 r1) sc)
    | _ => none
  else if dt = "uint32" ∨ dt = "u32" then
    match registers with
    | r0 :: r1 :: _ => some (PyVal.num ((unpackWords32 byte word r0 r1 : ℚ) * sc))
    | _ => none
  else if dt = "int32" ∨ dt = "i32" then
    match registers with
    | r0 :: r1 :: _ => some (PyVal.num ((toSigned32 (unpackWords32 byte word r0 r1) : ℚ) * sc))
    | _ => none
  else if dt = "uint16" ∨ dt = "u16" then
    match registers with
    | r0 :: _ => some (PyVal.num ((r0 : ℚ) * sc))
    | [] => none
  else if dt = "int16" ∨ dt = "i16" then
    match registers with
    | r0 :: _ => some (PyVal.num ((toSigned16 (applyByte byte r0) : ℚ) * sc))
    | [] => none
  else if dt = "string" then
    some (PyVal.str (pyStripNul (pyStrip (latin1OfRegisters registers))))
  else
    match registers with
    | r0 :: _ => some (PyVal.num ((r0 : ℚ) * sc))
    | [] => none

/-- `KronReader._decode_registers` (lines 319-360).  The `BinaryPayloadDecoder`
is built eagerly from the register list (line 341), so any register exceeding
16 bits makes `struct.pack("!H", x)` fail whatever the requested type —
modelled by the leading guard.  `none` models a raised exception.  Scaling
multiplies numeric results by `scale` (default 1.0); string results are
returned unscaled. -/
def decodeRegisters (registers : List Nat) (dtype : String) (scale : Option ℚ)
    (byteorder wordorder : Option String) : Option PyVal :=
  if registers.all (fun x => x < 65536) then
    let wb := resolveByteWord byteorder wordorder
    decodeTyped registers (strLower dtype) (scale.getD 1) wb.1 wb.2
  else none

/-- Field-device register layout `ABCD` (big byte order, big word order): a
32-bit value with bytes `A B C D` is transmitted as words `AB, CD`. -/
def layoutABCD (v : Nat) : List Nat := [hi16 v, lo16 v]

/-- Field-device register layout `DCBA` (the fully byte-reversed layout):
bytes `D C B A`, i.e. words `DC, BA`. -/
def layoutDCBA (v : Nat) : List Nat := [swap16 (lo16 v), swap16 (hi16 v)]

/-- Field-device register layout `CDAB` (word-swapped layout): bytes
`C D A B`, i.e. words `CD, AB`. -/
def layoutCDAB (v : Nat) : List Nat := [lo16 v, hi16 v]

/-- Field-device register layout `BADC` (byte-swapped-within-word layout):
bytes `B A D C`, i.e. words `BA, DC`. -/
def layoutBADC (v : Nat) : List Nat := [swap16 (hi16 v), swap16 (lo16 v)]

/-- The `settings` section of a register map.  Every field is optional, as in
the JSON dictionary; defaults are applied at the use sites exactly as the
source's `settings.get(key, default)` calls do. -/
structure Settings where
  baudrate : Option Nat
  bytesize : Option Nat
  parity : Option String
  stopbits : Option Nat
  timeout : Option ℚ
  scanSlaveIds : Option (List Nat)
deriving DecidableEq

/-- A channel's `detection` sub-dictionary (`fn`, `register`, `count`,
`type`, `expected_prefix`).  The JSON key `type` is called `dtype` here. -/
structure DetectionCfg where
  fn : Option Nat
  register : Option Nat
  count : Option Nat
  dtype : Option String
  expectedPref : Option String
deriving DecidableEq

/-- One entry of the `channels` list of a register map. -/
structure Channel where
  name : Option String
  slaveId : Option Nat
  detection : Option DetectionCfg
deriving DecidableEq

/-- One entry of the `measurements` list of a register map.  The JSON key
`type` is called `dtype` here; `wordorderKey`/`endianKey` are the two keys
the source consults for the word order (`entry.get("wordorder") or
entry.get("endian")`). -/
structure Measurement where
  name : Option String
  fn : Option Nat
  register : Option Nat
  count : Option Nat
  dtype : Option String
  scale : Option ℚ
  byteorder : Option String
  wordorderKey : Option String
  endianKey : Option String
  unit : Option String
  description : Option String
  ai : Option Bool
deriving DecidableEq

/-- `DetectionResult` (lines 152-157). -/
structure DetectionResult where
  port : String
  slaveId : Nat
  channelName : String
  rawIdentifier : Option String
deriving DecidableEq

/-- The `connection_info` dictionary of `KronReader`. -/
structure ConnectionInfo where
  status : String
  port : Option String
  canal : Option String
  identificador : Option String
deriving DecidableEq

/-- The `connection_info` value set by `__init__` and `close()`. -/
def disconnectedInfo : ConnectionInfo :=
  { status := "desconectado", port := none, canal := none, identificador := none }

/-- One row of `scan_registers()`: the descriptor keys copied with
`entry.get(k)` plus the read `value` (`none` = absence). -/
structure Row where
  name : Option String
  register : Option Nat
  fn : Option Nat
  unit : Option String
  description : Option String
  ai : Option Bool
  value : Option PyVal
deriving DecidableEq

/-- The mutable state of a `KronReader` (lines 171-183): the loaded map
sections plus the session fields.  The persistent transport `self.client` is
modelled by `Option Unit` — `some ()` when a `ModbusSerialClient` is held. -/
structure ReaderState where
  settings : Settings
  channels : List Channel
  measurements : List Measurement
  client : Option Unit
  currentSlaveId : Option Nat
  channelName : Option String
  connectionInfo : ConnectionInfo
  lastScan : List Row
deriving DecidableEq

/-- A loaded register map: the three top-level sections, each optional, read
with `self.map.get(section, default)`. -/
structure RegisterMap where
  settings : Option Settings
  channels : Option (List Channel)
  measurements : Option (List Measurement)
deriving DecidableEq

/-- `KronReader.__init__` (lines 163-183) applied to whichever register map
the constructor loaded (the JSON file if present, else the built-in default
— which file is loaded is an I/O concern outside the embedding).  Note that
the constructor performs no validation of the map whatsoever: it has no
failure outcome, and stores the `measurements`/`channels`/`settings`
sections verbatim. -/
def kronInit (m : RegisterMap) : ReaderState :=
  { settings := m.settings.getD
      { baudrate := none, bytesize := none, parity := none, stopbits := none
      , timeout := none, scanSlaveIds := none }
  , channels := m.channels.getD []
  , measurements := m.measurements.getD []
  , client := none
  , currentSlaveId := none
  , channelName := none
  , connectionInfo := disconnectedInfo
  , lastScan := [] }

/-- `self.settings.get("scan_slave_ids") or [1]` — the candidate address
list with the falsy-default applied (missing or empty list gives `[1]`). -/
def scanSlaveIds (st : Settings) : List Nat :=
  match st.scanSlaveIds with
  | none => [1]
  | some [] => [1]
  | some l => l

/-- `KronReader._default_slave` (lines 234-236). -/
def defaultSlave (s : ReaderState) : Nat := (scanSlaveIds s.settings).headD 1

/-- `KronReader._channels_to_scan` (lines 250-258): the configured channels
when the list is non-empty, otherwise one synthesized channel per candidate
address with the generic default detection read. -/
def channelsToScan (s : ReaderState) : List Channel :=
  if s.channels.isEmpty then
    (scanSlaveIds s.settings).map (fun sid =>
      { name := some ("CH30 canal " ++ toString sid)
      , slaveId := some sid
      , detection := some
          { fn := some 3, register := some 0, count := some 1
          , dtype := none, expectedPref := none } })
  else s.channels

/-- Lines 293-295 of `_probe_channel`: the identifier acceptance test.
`if expected and identifier:` skips the check whenever the expected value or
the identifier is falsy (absent or the empty string); otherwise the probe is
accepted exactly when `identifier.upper().startswith(expected.upper())`. -/
def acceptIdentifier (expected : Option String) (identifier : String) : Bool :=
  match expected with
  | none => true
  | some e =>
      if e = "" ∨ identifier = "" then true
      else strStartsWith (strUpper identifier) (strUpper e)

/-- `channel_cfg.get("name") or default` — Python `or` treats the empty
string like a missing name. -/
def orDefault (s : Option String) (d : String) : String :=
  match s with
  | some v => if v = "" then d else v
  | none => d

/-- Lines 289-297 of `_probe_channel`: the decision taken after a detection
read has succeeded and been decoded, as a function of the identifier string
the probe computed from the decoded value (`raw_value.strip()` for string
decodes, `str(raw_value)` otherwise).  Returns the `DetectionResult` the
probe reports, or `none` when the identifier is rejected (the transport and
decode steps preceding this slice are modelled in `Env.probe` /
`decodeRegisters`). -/
def probeDecision (cfg : Channel) (defSlave : Nat) (port : String)
    (identifier : String) : Option DetectionResult :=
  let slaveId := cfg.slaveId.getD defSlave
  let det := cfg.detection.getD
    { fn := none, register := none, count := none, dtype := none, expectedPref := none }
  if acceptIdentifier det.expectedPref identifier then
    some { port := port, slaveId := slaveId
         , channelName := orDefault cfg.name ("CH30 canal " ++ toString slaveId)
         , rawIdentifier := some identifier }
  else none

/-- The transport-lifecycle record `connect()` is audited against: whether
the persistent `ModbusSerialClient` was successfully opened, whether it was
closed again before `connect()` returned, and which measurements the
post-connect validation read touched. -/
structure TLog where
  openedPersistent : Bool
  closedPersistent : Bool
  testReads : List Measurement
deriving DecidableEq

/-- The log of a `connect()` run that never opened the persistent client. -/
def TLog.empty : TLog :=
  { openedPersistent := false, closedPersistent := false, testReads := [] }

/-- The `RuntimeError`s `connect()` can raise (lines 197, 214, 223 and the
no-ports error raised inside `_auto_detect`, line 241). -/
inductive ConnErr where
  | noSerialPorts
  | detectFailed
  | openFailed
  | testFailed
deriving DecidableEq

/-- The I/O environment of one `connect()`/acquisition run: the environment
variable overrides, the serial ports the host enumerates, the outcome of
`_probe_channel` for each port/channel candidate, whether opening the
persistent client on a port succeeds, and the outcome of
`_read_measurement` for each measurement (`none` = the read or decode
raised, i.e. an absent value). -/
structure Env where
  forcedPort : Option String
  forcedSlave : Option Nat
  comports : List String
  probe : String → Channel → Option DetectionResult
  openOk : String → Bool
  read : Measurement → Option PyVal

/-- The inner loop of `_auto_detect` (lines 243-247) over one port: probe
each channel in configured order, stopping at the first success.  Returns
the result together with the trace of probed `(port, channel)` candidates. -/
def scanChannels (probe : String → Channel → Option DetectionResult)
    (port : String) : List Channel → Option DetectionResult × List (String × Channel)
  | [] => (none, [])
  | c :: cs =>
    match probe port c with
    | some r => (some r, [(port, c)])
    | none =>
      let t := scanChannels probe port cs
      (t.1, (port, c) :: t.2)

/-- `KronReader._auto_detect` (lines 238-248), minus the empty-port-list
error which `detectionPhase` raises before calling this: iterate the ports
in host-enumeration order and the channels in configured order, returning
the first probe success; `none` when every candidate fails.  The second
component is the trace of probed candidates. -/
def autoDetect (probe : String → Channel → Option DetectionResult) :
    List String → List Channel → Option DetectionResult × List (String × Channel)
  | [], _ => (none, [])
  | p :: ps, cs =>
    match scanChannels probe p cs with
    | (some r, tr) => (some r, tr)
    | (none, tr) =>
      let t := autoDetect probe ps cs
      (t.1, tr ++ t.2)

/-- The full candidate sequence discovery walks: every channel of every
port, ports outermost. -/
def candidates (ports : List String) (cs : List Channel) : List (String × Channel) :=
  match ports with
  | [] => []
  | p :: ps => cs.map (fun c => (p, c)) ++ candidates ps cs

/-- Generic early-exit scan (specification device for `autoDetect`): apply
`f` to each element in order, stopping at the first `some`; also returns the
list of elements visited. -/
def scanList (f : α → Option β) : List α → Option β × List α
  | [] => (none, [])
  | x :: xs =>
    match f x with
    | some r => (some r, [x])
    | none =>
      let t := scanList f xs
      (t.1, x :: t.2)

/-- Line 305 of `_test_connection`: the measurement used for the validating
read — the first analysis-relevant (`ai`) measurement, else the first
measurement, else nothing (`next((m for m in measurements if m.get("ai")),
None) or (measurements[0] if measurements else None)`). -/
def testEntry (ms : List Measurement) : Option Measurement :=
  match ms.find? (fun m => m.ai.getD false) with
  | some m => some m
  | none => ms.head?

/-- `KronReader._test_connection` (lines 301-314): false without a client;
trivially true when the map declares no measurements; otherwise true exactly
when the single validating read does not raise.  The second component is the
list of measurements actually read. -/
def testConnection (env : Env) (s : ReaderState) : Bool × List Measurement :=
  if s.client.isNone then (false, [])
  else
    match testEntry s.measurements with
    | none => (true, [])
    | some m => ((env.read m).isSome, [m])

/-- `os.getenv` truthiness: an unset variable and the empty string are both
falsy in `if forced_port:`. -/
def truthyStr (s : Option String) : Option String :=
  match s with
  | some v => if v = "" then none else some v
  | none => none

/-- Lines 189-197 of `connect()`: the forced override or auto-detection,
producing either a `DetectionResult` or the discovery-phase error
(`_auto_detect` raises when no serial port exists at all; `connect()` raises
when detection returns nothing). -/
def detectionPhase (env : Env) (s : ReaderState) : Except ConnErr DetectionResult :=
  match truthyStr env.forcedPort with
  | some p =>
      let slave := env.forcedSlave.getD (defaultSlave s)
      Except.ok { port := p, slaveId := slave
                , channelName := "CH30 slave " ++ toString slave
                , rawIdentifier := none }
  | none =>
      if env.comports.isEmpty then Except.error ConnErr.noSerialPorts
      else
        match (autoDetect env.probe env.comports (channelsToScan s)).1 with
        | some det => Except.ok det
        | none => Except.error ConnErr.detectFailed

/-- Python dict assignment `snapshot[name] = value` on an insertion-ordered
dict: update in place if the key exists, else append. -/
def dictInsert (d : List (String × Option PyVal)) (k : String) (v : Option PyVal) :
    List (String × Option PyVal) :=
  if d.any (fun p => p.1 = k) then
    d.map (fun p => if p.1 = k then (k, v) else p)
  else d ++ [(k, v)]

/-- The measurement loop of `read_all` (lines 388-395): skip entries with a
falsy name, otherwise store the read outcome (value, or `None` on any
exception) under the entry's name. -/
def readAllGo (env : Env) : List Measurement → List (String × Option PyVal) →
    List (String × Option PyVal)
  | [], snap => snap
  | m :: rest, snap =>
    match m.name with
    | none => readAllGo env rest snap
    | some n =>
      if n = "" then readAllGo env rest snap
      else readAllGo env rest (dictInsert snap n (env.read m))

/-- `KronReader.read_all` (lines 384-396).  Note the early return: with no
client the snapshot is returned empty, before the measurement loop runs. -/
def readAll (env : Env) (s : ReaderState) : List (String × Option PyVal) :=
  if s.client.isNone then []
  else readAllGo env s.measurements []

/-- One row of `scan_registers` (line 403-407): the six descriptor keys
copied from the entry plus the read outcome. -/
def rowOf (env : Env) (m : Measurement) : Row :=
  { name := m.name, register := m.register, fn := m.fn, unit := m.unit
  , description := m.description, ai := m.ai, value := env.read m }

/-- `KronReader.scan_registers` (lines 398-410): with no client, return `[]`
without touching `last_scan`; otherwise one row per measurement in declared
order, also stored in `last_scan`. -/
def scanRegisters (env : Env) (s : ReaderState) : List Row × ReaderState :=
  if s.client.isNone then ([], s)
  else
    let rows := s.measurements.map (rowOf env)
    (rows, { s with lastScan := rows })

/-- `KronReader.close` (lines 431-440): release the client and reset
`connection_info` — but only when a client is held; otherwise a no-op.
(`current_slave_id`, `channel_name` and `last_scan` are not reset.) -/
def close (s : ReaderState) : ReaderState :=
  if s.client.isSome then
    { s with client := none, connectionInfo := disconnectedInfo }
  else s

/-- `KronReader.connect` (lines 188-232): detection (forced or discovered),
open the persistent client, set the session fields, run the validating read
— on failure close the client, clear it and raise; on success fill
`connection_info` and warm `last_scan` via `scan_registers`.  Returns the
outcome (`ok ()` models `return True`), the post-call state and the
transport log. -/
def connect (env : Env) (s : ReaderState) :
    Except ConnErr Unit × ReaderState × TLog :=
  match detectionPhase env s with
  | Except.error e => (Except.error e, s, TLog.empty)
  | Except.ok det =>
    if env.openOk det.port then
      let s1 := { s with client := some ()
                       , currentSlaveId := some det.slaveId
                       , channelName := some det.channelName }
      let t := testConnection env s1
      if t.1 then
        let s2 := { s1 with connectionInfo :=
          { status := "conectado", port := some det.port
          , canal := some det.channelName, identificador := det.rawIdentifier } }
        let sr := scanRegisters env s2
        (Except.ok (), sr.2,
         { openedPersistent := true, closedPersistent := false, testReads := t.2 })
      else
        (Except.error ConnErr.testFailed, { s1 with client := none },
         { openedPersistent := true, closedPersistent := true, testReads := t.2 })
    else
      (Except.error ConnErr.openFailed, s, TLog.empty)

/-! ### Concrete instances

Small concrete register maps, states and environments used to instantiate
the theorems below on closed inputs.  They follow the shape of the built-in
`DEFAULT_REGISTER_MAP`. -/

/-- A float measurement in the shape of the default map's `tensao_l1`. -/
def measQ : Measurement :=
  { name := some "tensao_l1", fn := some 4, register := some 0, count := some 2
  , dtype := some "float", scale := none, byteorder := none, wordorderKey := none
  , endianKey := none, unit := some "V", description := some "Tensao fase-neutro L1"
  , ai := some true }

/-- A second measurement with a distinct name (`frequencia`). -/
def measR : Measurement :=
  { measQ with name := some "frequencia", register := some 60, unit := some "Hz", ai := some false }

/-- Settings in the shape of the default map's `settings` section. -/
def settingsW : Settings :=
  { baudrate := some 9600, bytesize := some 8, parity := some "N"
  , stopbits := some 2, timeout := some (3/2), scanSlaveIds := some [1, 2, 3, 4] }

/-- The detection configuration of the default map's only channel. -/
def detCfgW : DetectionCfg :=
  { fn := some 3, register := some 0, count := some 2, dtype := some "string"
  , expectedPref := some "CH30" }

/-- The default map's only channel. -/
def chanW : Channel :=
  { name := some "CH30 canal 1", slaveId := some 1, detection := some detCfgW }

/-- A two-measurement register map. -/
def mapW : RegisterMap :=
  { settings := some settingsW, channels := some [chanW]
  , measurements := some [measQ, measR] }

/-- A freshly constructed reader over `mapW` (no client). -/
def freshState : ReaderState := kronInit mapW

/-- A reader over `mapW` with no declared measurements. -/
def stateNoMeas : ReaderState :=
  kronInit { mapW with measurements := some [] }

/-- A connected session state over `mapW`. -/
def connState : ReaderState :=
  { freshState with client := some (), connectionInfo := { status := "conectado", port := some "COM1", canal := some "CH30 canal 1", identificador := some "CH30" } }

/-- Environment with a forced port whose every register read fails. -/
def envNoRead : Env :=
  { forcedPort := some "COM1", forcedSlave := some 1, comports := []
  , probe := fun _ _ => none, openOk := fun _ => true, read := fun _ => none }

/-- Environment where `tensao_l1` reads 220 and every other read fails. -/
def envMix : Env :=
  { forcedPort := none, forcedSlave := none, comports := ["COM1"]
  , probe := fun _ _ => none, openOk := fun _ => true
  , read := fun m => if m.name = some "tensao_l1" then some (PyVal.num 220) else none }

/-- Environment with two enumerated ports and no responding device. -/
def envScan : Env :=
  { forcedPort := none, forcedSlave := none, comports := ["COM1", "COM2"]
  , probe := fun _ _ => none, openOk := fun _ => true, read := fun _ => none }

/-- The detection result produced by `envNoRead`'s forced override. -/
def detW : DetectionResult :=
  { port := "COM1", slaveId := 1, channelName := "CH30 slave 1", rawIdentifier := none }

/-- A float32 measurement declared with word count 1 — inconsistent with
the two-register width of `float`. -/
def badFloatMeas : Measurement :=
  { name := some "x", fn := some 4, register := some 0, count := some 1
  , dtype := some "float", scale := none, byteorder := none, wordorderKey := none
  , endianKey := none, unit := none, description := none, ai := some true }

/-- First of two measurements sharing the name `dup`. -/
def dupMeasA : Measurement :=
  { badFloatMeas with name := some "dup", dtype := some "uint16" }

/-- Second measurement named `dup` (different register). -/
def dupMeasB : Measurement :=
  { dupMeasA with register := some 2 }

/-- A register map that is inconsistent on two counts: a float32 measurement
with word count 1, and duplicate measurement names. -/
def badMap : RegisterMap :=
  { settings := some settingsW, channels := some [chanW]
  , measurements := some [badFloatMeas, dupMeasA, dupMeasB] }

/-! ### Helper lemmas -/

/-- Unfolding equation for `scanList` on a cons cell. -/
theorem scanList_cons (f : α → Option β) (x : α) (xs : List α) :
    scanList f (x :: xs) = match f x with
      | some r => (some r, [x])
      | none => ((scanList f xs).1, x :: (scanList f xs).2) := rfl

/-- `scanList` over an appended list: the second block is visited only when
the first block produced no result. -/
theorem scanList_append (f : α → Option β) (l₁ l₂ : List α) :
    scanList f (l₁ ++ l₂) =
      ((scanList f l₁).1.orElse (fun _ => (scanList f l₂).1),
       if (scanList f l₁).1.isSome then (scanList f l₁).2
       else (scanList f l₁).2 ++ (scanList f l₂).2) := by
  induction l₁ with
  | nil => simp [scanList]
  | cons x xs ih =>
    rw [List.cons_append, scanList_cons, scanList_cons]
    cases hfx : f x with
    | some r => simp [Option.orElse]
    | none => cases h : (scanList f xs).1 <;> simp [Option.orElse, h, ih]

/-- `scanList` returns the first hit of `f`, and visits exactly the failing
prefix plus (when one exists) the first succeeding element. -/
theorem scanList_spec (f : α → Option β) (l : List α) :
    scanList f l = (l.findSome? f,
      l.takeWhile (fun x => (f x).isNone) ++ (l.dropWhile (fun x => (f x).isNone)).take 1) := by
  induction l with
  | nil => simp [scanList]
  | cons x xs ih =>
    rw [scanList_cons, List.findSome?_cons, List.takeWhile_cons, List.dropWhile_cons]
    cases hfx : f x with
    | some r => simp
    | none => simp [ih]

/-- Unfolding equation for `scanChannels` on a cons cell. -/
theorem scanChannels_cons (probe : String → Channel → Option DetectionResult)
    (p : String) (c : Channel) (cs : List Channel) :
    scanChannels probe p (c :: cs) = match probe p c with
      | some r => (some r, [(p, c)])
      | none => ((scanChannels probe p cs).1, (p, c) :: (scanChannels probe p cs).2) := rfl

/-- The inner channel loop is `scanList` over the port's candidates. -/
theorem scanChannels_eq (probe : String → Channel → Option DetectionResult)
    (p : String) (cs : List Channel) :
    scanChannels probe p cs = scanList (fun pc => probe pc.1 pc.2) (cs.map (fun c => (p, c))) := by
  induction cs with
  | nil => rfl
  | cons c cs ih =>
    rw [List.map_cons, scanChannels_cons, scanList_cons]
    cases hfx : probe p c with
    | some r => rfl
    | none => rw [ih]

/-- Unfolding equation for `autoDetect` on a cons cell. -/
theorem autoDetect_cons (probe : String → Channel → Option DetectionResult)
    (p : String) (ps : List String) (cs : List Channel) :
    autoDetect probe (p :: ps) cs = match scanChannels probe p cs with
      | (some r, tr) => (some r, tr)
      | (none, tr) => ((autoDetect probe ps cs).1, tr ++ (autoDetect probe ps cs).2) := rfl

/-- `_auto_detect` is the early-exit scan of the full candidate sequence. -/
theorem autoDetect_eq (probe : String → Channel → Option DetectionResult)
    (ports : List String) (cs : List Channel) :
    autoDetect probe ports cs = scanList (fun pc => probe pc.1 pc.2) (candidates ports cs) := by
  induction ports with
  | nil => rfl
  | cons p ps ih =>
    rw [autoDetect_cons, scanChannels_eq, candidates, scanList_append, ih]
    cases hs : scanList (fun pc => probe pc.1 pc.2) (cs.map (fun c => (p, c))) with
    | mk o t => cases o <;> simp [Option.orElse]

/-- Inserting a key not present in the dict appends a new entry. -/
theorem dictInsert_of_fresh (d : List (String × Option PyVal)) (k : String) (v : Option PyVal)
    (h : ∀ p ∈ d, p.1 ≠ k) : dictInsert d k v = d ++ [(k, v)] := by
  unfold dictInsert
  rw [if_neg]
  simp only [List.any_eq_true, decide_eq_true_eq, not_exists, not_and]
  intro p hp
  exact h p hp

/-- Unfolding equation for `readAllGo` on a cons cell. -/
theorem readAllGo_cons (env : Env) (m : Measurement) (rest : List Measurement)
    (snap : List (String × Option PyVal)) :
    readAllGo env (m :: rest) snap = match m.name with
      | none => readAllGo env rest snap
      | some n => if n = "" then readAllGo env rest snap
                  else readAllGo env rest (dictInsert snap n (env.read m)) := rfl

/-- The `read_all` measurement loop, when every measurement has a distinct
non-empty name whose key is not already in the accumulator, appends one
entry per measurement in declared order. -/
theorem readAllGo_spec (env : Env) (ms : List Measurement) (snap : List (String × Option PyVal))
    (hgood : ∀ m ∈ ms, m.name.getD "" ≠ "")
    (hnodup : (ms.map (fun m => m.name.getD "")).Nodup)
    (hdisj : ∀ m ∈ ms, ∀ p ∈ snap, p.1 ≠ m.name.getD "") :
    readAllGo env ms snap = snap ++ ms.map (fun m => (m.name.getD "", env.read m)) := by
  induction ms generalizing snap with
  | nil => simp [readAllGo]
  | cons m rest ih =>
    have hg := hgood m (List.mem_cons_self m rest)
    cases hmn : m.name with
    | none => rw [hmn] at hg; exact absurd rfl hg
    | some n =>
      rw [hmn] at hg
      simp only [Option.getD_some] at hg
      rw [readAllGo_cons, hmn]
      dsimp only
      rw [if_neg hg]
      have hfresh : ∀ p ∈ snap, p.1 ≠ n := fun p hp => by
        have h0 := hdisj m (List.mem_cons_self m rest) p hp
        rw [hmn] at h0
        simpa using h0
      rw [dictInsert_of_fresh snap n (env.read m) hfresh]
      have hnotin : n ∉ rest.map (fun m => m.name.getD "") := by
        have h0 := hnodup
        rw [List.map_cons, hmn] at h0
        simp only [Option.getD_some] at h0
        exact (List.nodup_cons.mp h0).1
      rw [ih (snap ++ [(n, env.read m)])
        (fun m1 hm1 => hgood m1 (List.mem_cons_of_mem m hm1))
        (by rw [List.map_cons] at hnodup; exact hnodup.of_cons)
        (fun m1 hm1 p hp => by
          cases List.mem_append.mp hp with
          | inl hp1 => exact hdisj m1 (List.mem_cons_of_mem m hm1) p hp1
          | inr hp2 =>
            have hpn : p = (n, env.read m) := List.mem_singleton.mp hp2
            rw [hpn]
            dsimp only
            intro heq
            exact hnotin (by
              rw [heq]
              exact List.mem_map_of_mem (fun m => m.name.getD "") hm1))]
      rw [List.map_cons, hmn]
      simp [List.append_assoc]

/-! ### Claim theorems -/

/-- Claim C1 (corrected), counterexample: on a session with no open client
and two declared measurements, `read_all` returns the empty snapshot — 0
entries rather than the 2 explicitly-absent entries the claim requires. -/
theorem read_all_disconnected_cex :
    readAll envMix freshState = []
    ∧ freshState.measurements.length = 2
    ∧ freshState.client = none := ⟨rfl, rfl, rfl⟩

/-- Claim C1 (corrected, amended): when a client is open and the declared
measurements carry distinct non-empty names, `read_all` returns exactly one
entry per declared measurement, in declared order, each holding the read
value or the explicit absence marker; with no client it returns the empty
snapshot instead. -/
theorem read_all_connected (env : Env) (s : ReaderState)
    (hc : s.client = some ())
    (hgood : ∀ m ∈ s.measurements, m.name.getD "" ≠ "")
    (hnodup : (s.measurements.map (fun m => m.name.getD "")).Nodup) :
    readAll env s = s.measurements.map (fun m => (m.name.getD "", env.read m))
    ∧ (readAll env s).length = s.measurements.length := by
  have h : readAll env s = s.measurements.map (fun m => (m.name.getD "", env.read m)) := by
    unfold readAll
    rw [hc]
    simpa using readAllGo_spec env s.measurements [] hgood hnodup (by simp)
  exact ⟨h, by rw [h, List.length_map]⟩

/-- Witness for `read_all_connected` at a concrete connected session. -/
theorem read_all_connected_witness :
    readAll envMix connState = [("tensao_l1", some (PyVal.num 220)), ("frequencia", none)]
    ∧ (readAll envMix connState).length = 2 := by
  have h := read_all_connected envMix connState rfl (by decide) (by decide)
  exact ⟨h.1.trans (by decide), by rw [h.2]; rfl⟩

/-- Claim C2 (confirmed): whenever `connect()` reaches the post-connect
validation read from a disconnected session and that read fails, it raises
the connection-test error, the just-opened persistent client is closed again
before the error surfaces, and `connection_info` still reads disconnected. -/
theorem connect_test_failure (env : Env) (s : ReaderState) (det : DetectionResult)
    (hdisc : s.connectionInfo.status = "desconectado")
    (hdet : detectionPhase env s = Except.ok det)
    (hopen : env.openOk det.port = true)
    (htest : (testConnection env { s with client := some (), currentSlaveId := some det.slaveId, channelName := some det.channelName }).1 = false) :
    (connect env s).1 = Except.error ConnErr.testFailed
    ∧ (connect env s).2.1.client = none
    ∧ (connect env s).2.1.connectionInfo = s.connectionInfo
    ∧ (connect env s).2.1.connectionInfo.status = "desconectado"
    ∧ (connect env s).2.2.openedPersistent = true
    ∧ (connect env s).2.2.closedPersistent = true := by
  unfold connect
  rw [hdet]
  simp only [hopen, if_true, htest, if_false]
  exact ⟨rfl, rfl, rfl, hdisc, rfl, rfl⟩

/-- Witness for `connect_test_failure`: a fresh session whose forced port
opens but whose every register read fails. -/
theorem connect_test_failure_witness :
    (connect envNoRead freshState).1 = Except.error ConnErr.testFailed
    ∧ (connect envNoRead freshState).2.1.client = none
    ∧ (connect envNoRead freshState).2.1.connectionInfo.status = "desconectado"
    ∧ (connect envNoRead freshState).2.2.openedPersistent = true
    ∧ (connect envNoRead freshState).2.2.closedPersistent = true := by
  have h := connect_test_failure envNoRead freshState detW rfl rfl rfl rfl
  exact ⟨h.1, h.2.1, h.2.2.2.1, h.2.2.2.2.1, h.2.2.2.2.2⟩

/-- Claim C3 (code bug): the three mixed word-order conventions do not all
round-trip the field-device layout they are named after.  `dcba` does; but
decoding a CDAB-encoded value under `"cdab"` (and a BADC-encoded value under
`"badc"`) yields the fully byte-reversed pattern instead of the original —
the source's `mapping` dict pairs are `(byteorder, wordorder)` values but
are destructured as `word, byte`, interchanging the `cdab` and `badc`
behaviours, as the cross conjuncts show.  The patterns `0x01020304` and
`0x04030201` are distinct normal IEEE-754 numbers (≈ 8.31e-38 vs ≈
1.54e-36), so the decoded values differ. -/
theorem mixed_wordorder_mapping :
    decodeRegisters (layoutCDAB 0x01020304) "float" none none (some "cdab")
      = some (PyVal.f32 0x04030201 1)
    ∧ decodeRegisters (layoutBADC 0x01020304) "float" none none (some "badc")
      = some (PyVal.f32 0x04030201 1)
    ∧ decodeRegisters (layoutDCBA 0x01020304) "float" none none (some "dcba")
      = some (PyVal.f32 0x01020304 1)
    ∧ decodeRegisters (layoutCDAB 0x01020304) "float" none none (some "badc")
      = some (PyVal.f32 0x01020304 1)
    ∧ decodeRegisters (layoutBADC 0x01020304) "float" none none (some "cdab")
      = some (PyVal.f32 0x01020304 1)
    ∧ (0x04030201 : Nat) ≠ 0x01020304 := by
  refine ⟨by decide, by decide, by decide, by decide, by decide, by decide⟩

/-- Claim C4 (confirmed): discovery probes ports in host-enumeration order
and channels in configured order within each port; it returns the first
candidate whose probe succeeds, probing nothing beyond it (the trace is the
failing prefix plus the one success); and when no candidate succeeds,
`connect()` fails with the discovery error, leaving the session state — in
particular `connection_info` — untouched. -/
theorem discovery_first_success (env : Env) (s : ReaderState)
    (hforced : env.forcedPort = none)
    (hports : env.comports ≠ []) :
    (autoDetect env.probe env.comports (channelsToScan s)).1
        = (candidates env.comports (channelsToScan s)).findSome?
            (fun pc => env.probe pc.1 pc.2)
    ∧ (autoDetect env.probe env.comports (channelsToScan s)).2
        = (candidates env.comports (channelsToScan s)).takeWhile
            (fun pc => (env.probe pc.1 pc.2).isNone)
          ++ ((candidates env.comports (channelsToScan s)).dropWhile
            (fun pc => (env.probe pc.1 pc.2).isNone)).take 1
    ∧ ((candidates env.comports (channelsToScan s)).findSome?
          (fun pc => env.probe pc.1 pc.2) = none →
        connect env s = (Except.error ConnErr.detectFailed, s, TLog.empty)) := by
  have h := autoDetect_eq env.probe env.comports (channelsToScan s)
  rw [scanList_spec] at h
  refine ⟨by rw [h], by rw [h], ?_⟩
  intro hnone
  have h1 : (autoDetect env.probe env.comports (channelsToScan s)).1 = none := by
    rw [h]; exact hnone
  have hne : env.comports.isEmpty = false := by
    cases hc : env.comports with
    | nil => exact absurd hc hports
    | cons a l => rfl
  unfold connect detectionPhase
  simp only [hforced, truthyStr, hne, Bool.false_eq_true, if_false, h1]

/-- Witness for `discovery_first_success`: two enumerated ports, no
responding device — `connect()` fails with the discovery error and the
state is unchanged. -/
theorem discovery_first_success_witness :
    connect envScan freshState = (Except.error ConnErr.detectFailed, freshState, TLog.empty) := by
  have h := discovery_first_success envScan freshState rfl (by decide)
  exact h.2.2 (by decide)

/-- Claim C5 (corrected), counterexample: with the expected identifier
prefix `"CH30"` configured, a decoded identifier that strips to the empty
string — e.g. an all-NUL string response — is accepted and a
`DetectionResult` is returned, although the empty identifier does not start
with `"CH30"` (Python's `if expected and identifier:` skips the check for a
falsy identifier). -/
theorem probe_empty_identifier_cex :
    probeDecision chanW 1 "COM3" ""
      = some { port := "COM3", slaveId := 1, channelName := "CH30 canal 1", rawIdentifier := some "" }
    ∧ strStartsWith (strUpper "") (strUpper "CH30") = false
    ∧ decodeRegisters [0, 0] "string" none none none = some (PyVal.str "")
    ∧ pyStrip "" = "" := by
  refine ⟨by decide, by decide, by decide, by decide⟩

/-- Claim C5 (corrected, amended): for a probe whose channel configures a
non-empty expected prefix and whose decoded identifier is non-empty, the
probe returns a `DetectionResult` exactly when the identifier starts with
the prefix, compared case-insensitively (both sides upper-cased); an empty
decoded identifier bypasses the check and is accepted. -/
theorem probe_prefix_decision (cfg : Channel) (det : DetectionCfg) (ds : Nat)
    (port ident e : String)
    (hdet : cfg.detection = some det)
    (hexp : det.expectedPref = some e)
    (he : e ≠ "") (hid : ident ≠ "") :
    (probeDecision cfg ds port ident).isSome
      = strStartsWith (strUpper ident) (strUpper e) := by
  unfold probeDecision acceptIdentifier
  rw [hdet]
  dsimp only [Option.getD_some]
  rw [hexp]
  dsimp only
  rw [if_neg (show ¬(e = "" ∨ ident = "") from by simp [he, hid])]
  cases h : strStartsWith (strUpper ident) (strUpper e) <;> simp [h]

/-- Witness for `probe_prefix_decision`: the identifier `"ch30-x"` matches
the prefix `"CH30"` case-insensitively and is accepted. -/
theorem probe_prefix_decision_witness :
    (probeDecision chanW 1 "COM5" "ch30-x").isSome = true := by
  have h := probe_prefix_decision chanW detCfgW 1 "COM5" "ch30-x" "CH30" rfl rfl
    (by decide) (by decide)
  exact h.trans (by decide)

/-- Claim C6 (corrected), counterexample: on a session with no open client
and two declared measurements, `scan_registers` returns 0 rows rather than
one row per measurement. -/
theorem scan_registers_disconnected_cex :
    (scanRegisters envMix freshState).1 = []
    ∧ freshState.measurements.length = 2
    ∧ freshState.client = none := ⟨rfl, rfl, rfl⟩

/-- Claim C6 (corrected, amended): when a client is open, `scan_registers`
returns exactly one row per declared measurement in declared order, each row
carrying the descriptor fields (name, register, function code, unit,
description, relevance flag) paired with the read value or absence, and the
rows are stored in `last_scan`; with no client it returns the empty list
instead. -/
theorem scan_registers_connected (env : Env) (s : ReaderState)
    (hc : s.client = some ()) :
    (scanRegisters env s).1 = s.measurements.map (rowOf env)
    ∧ (scanRegisters env s).1.length = s.measurements.length
    ∧ (scanRegisters env s).2 = { s with lastScan := s.measurements.map (rowOf env) } := by
  have h1 : scanRegisters env s
      = (s.measurements.map (rowOf env), { s with lastScan := s.measurements.map (rowOf env) }) := by
    unfold scanRegisters
    rw [hc]
    rfl
  refine ⟨by rw [h1], ?_, by rw [h1]⟩
  rw [h1]
  exact List.length_map s.measurements (rowOf env)

/-- Witness for `scan_registers_connected` at a concrete connected session. -/
theorem scan_registers_connected_witness :
    (scanRegisters envMix connState).1
      = [ { name := some "tensao_l1", register := some 0, fn := some 4, unit := some "V", description := some "Tensao fase-neutro L1", ai := some true, value := some (PyVal.num 220) }
        , { name := some "frequencia", register := some 60, fn := some 4, unit := some "Hz", description := some "Tensao fase-neutro L1", ai := some false, value := none } ]
    ∧ (scanRegisters envMix connState).1.length = 2 := by
  have h := scan_registers_connected envMix connState rfl
  exact ⟨h.1.trans (by decide), by rw [h.2.1]; rfl⟩

/-- Claim C7 (corrected), counterexample: a register map declaring a float32
measurement with word count 1 and two measurements with the same name loads
without any error — `__init__` has no failure outcome and installs the
inconsistent measurement list verbatim, the session object is constructed
(disconnected) — while decoding that float measurement's single register
word fails only at decode time. -/
theorem config_not_validated_cex :
    (kronInit badMap).measurements = [badFloatMeas, dupMeasA, dupMeasB]
    ∧ (kronInit badMap).connectionInfo = disconnectedInfo
    ∧ (kronInit badMap).client = none
    ∧ decodeRegisters [17664] "float" none none none = none := by
  refine ⟨rfl, rfl, rfl, by decide⟩

/-- Claim C7 (corrected, amended): loading performs no validation at all —
every register map, however inconsistent, is accepted verbatim and yields a
constructed, disconnected session; a float32 measurement with a single
register word fails only when decoded, where the failure is absorbed as an
absent value. -/
theorem config_validation_deferred (m : RegisterMap) (r : Nat) (sc : Option ℚ)
    (bo wo : Option String) :
    (kronInit m).measurements = m.measurements.getD []
    ∧ (kronInit m).client = none
    ∧ (kronInit m).connectionInfo = disconnectedInfo
    ∧ decodeRegisters [r] "float" sc bo wo = none := by
  refine ⟨rfl, rfl, rfl, ?_⟩
  by_cases h : r < 65536
  · unfold decodeRegisters
    rw [if_pos (by simpa using h)]
    rfl
  · unfold decodeRegisters
    rw [if_neg (by simpa using h)]

/-- Claim C8 (confirmed): on a session holding an open client, one `close()`
releases the client and resets `connection_info` to disconnected with port,
channel and identifier cleared; a second `close()` is a no-op (and `close`
is a total function, so it never fails). -/
theorem close_idempotent (s : ReaderState) (h : s.client = some ()) :
    (close s).client = none
    ∧ (close s).connectionInfo = disconnectedInfo
    ∧ close (close s) = close s := by
  have h1 : close s = { s with client := none, connectionInfo := disconnectedInfo } := by
    unfold close
    rw [h]
    rfl
  refine ⟨by rw [h1], by rw [h1], ?_⟩
  rw [h1]
  unfold close
  rfl

/-- Witness for `close_idempotent` at a concrete connected session. -/
theorem close_idempotent_witness :
    (close connState).client = none
    ∧ (close connState).connectionInfo = disconnectedInfo
    ∧ close (close connState) = close connState :=
  close_idempotent connState rfl

/-- Claim C9 (confirmed): with an empty measurement list, the connection
test performs no read at all (the test-read trace is empty) and `connect()`
reports the session connected on the strength of detection and port open
alone. -/
theorem connect_empty_measurements (env : Env) (s : ReaderState) (det : DetectionResult)
    (hm : s.measurements = [])
    (hdet : detectionPhase env s = Except.ok det)
    (hopen : env.openOk det.port = true) :
    connect env s = (Except.ok (),
      { s with client := some (), currentSlaveId := some det.slaveId, channelName := some det.channelName, connectionInfo := { status := "conectado", port := some det.port, canal := some det.channelName, identificador := det.rawIdentifier }, lastScan := [] },
      { openedPersistent := true, closedPersistent := false, testReads := [] }) := by
  unfold connect
  rw [hdet]
  simp only [hopen, if_true]
  simp [testConnection, testEntry, hm, scanRegisters]

/-- Witness for `connect_empty_measurements` at a concrete session with no
declared measurements. -/
theorem connect_empty_measurements_witness :
    connect envNoRead stateNoMeas = (Except.ok (),
      { stateNoMeas with client := some (), currentSlaveId := some 1, channelName := some "CH30 slave 1", connectionInfo := { status := "conectado", port := some "COM1", canal := some "CH30 slave 1", identificador := none }, lastScan := [] },
      { openedPersistent := true, closedPersistent := false, testReads := [] }) :=
  connect_empty_measurements envNoRead stateNoMeas detW rfl rfl rfl

/-- Claim C10 (confirmed): a `uint16` decode returns the raw first register
word times the scale, whatever byte order and word order are supplied (they
are quantified here and absent from the result), while an `int16` decode
goes through the endianness-aware payload decoder — the same register
decodes differently under byte order `"big"` and `"little"`. -/
theorem uint16_ignores_endianness (r : Nat) (rest : List Nat) (sc : ℚ)
    (bo wo : Option String)
    (hr : r < 65536) (hrest : rest.all (fun x => x < 65536) = true) :
    decodeRegisters (r :: rest) "uint16" (some sc) bo wo = some (PyVal.num ((r : ℚ) * sc))
    ∧ decodeRegisters [256] "int16" none (some "big") none
        ≠ decodeRegisters [256] "int16" none (some "little") none := by
  constructor
  · have hall : (r :: rest).all (fun x => decide (x < 65536)) = true := by
      simp only [List.all_cons, hrest, Bool.and_true, decide_eq_true_eq]
      exact hr
    unfold decodeRegisters
    rw [if_pos hall]
    rfl
  · simp [decodeRegisters, decodeTyped, resolveByteWord, strLower, strStartsWith,
      applyByte, toSigned16, swap16]

/-- Witness for `uint16_ignores_endianness`: register 7 with scale 2 decodes
to 14 even under little byte order and the `dcba` word order. -/
theorem uint16_ignores_endianness_witness :
    decodeRegisters [7] "uint16" (some 2) (some "little") (some "dcba")
      = some (PyVal.num 14) := by
  have h := uint16_ignores_endianness 7 [] 2 (some "little") (some "dcba")
    (by decide) (by decide)
  refine h.1.trans ?_
  norm_num

end Emusa
